import Mathlib

/-!
Shallow embedding of `src/backend/python-api/streamlit_app.py` (and the
`check_backend` helper of `src/backend/python-api/run_chat.py`).

The script keeps four fields in `st.session_state`: `messages`,
`repository`, `documentation`, `conversation_history`.  Each Streamlit
rerun renders widgets whose handlers mutate that state; we embed one
user interaction as a `step` on an explicit `SessionState`, with the
rendering guards of the script (which widgets exist at all) reproduced
as boolean conditions.  All theorems below concern reruns in which the
initial health check passed (`test_backend_connection` returning false
makes the script call `st.stop()` before any widget is rendered, so no
state changes at all in that case).

Remote HTTP calls are modelled by an `HttpOutcome` value carried by the
event: either a response with a status code and an already-parsed JSON
body, or a raised exception (`exn`, covering transport errors and
timeouts).  Python dict truthiness is noted where it matters: the
`repository` and `documentation` dicts delivered by the backend are
non-empty, so their truthiness coincides with `Option.isSome`; for the
reply string, truthiness is non-emptiness, embedded explicitly.
-/

/-- A message role, the `role` field of a chat message dict. -/
inductive Role where
  | user
  | assistant
deriving DecidableEq, Repr

/-- A chat message dict: `\x7b"role": ..., "content": ...\x7d` in the script. -/
structure ChatMessage where
  role : Role
  content : String
deriving DecidableEq, Repr

/-- The repository dict returned by the backend on connect
(`result["repository"]`).  `fileStructure` is an uninterpreted JSON
payload the script only forwards verbatim, embedded as a string. -/
structure Repository where
  owner : String
  name : String
  defaultBranch : String
  url : String
  description : Option String
  fileStructure : String
deriving DecidableEq, Repr

/-- The `summary` object inside the documentation JSON
(`doc_data.get("summary", \x7b\x7d)`). -/
structure DocSummary where
  summary : String
  technologies : List String
  mainComponents : List String
deriving DecidableEq, Repr

/-- The inner documentation payload `documentation["json"]`:
`summary` may be absent (`doc_data.get("summary", \x7b\x7d)`), and `files` is
the key sequence of `doc_data.get("files", \x7b\x7d)` in insertion order
(Python dicts preserve it). -/
structure DocData where
  summary : Option DocSummary
  files : List String
deriving DecidableEq, Repr

/-- The documentation dict stored in session state
(`doc_result["documentation"]`); the script checks `"json" in ...`
before using it, so the inner payload is optional. -/
structure Documentation where
  json : Option DocData
deriving DecidableEq, Repr

/-- The parsed body of a successful `/connect-repository` response:
`result.get("success")` and `result["repository"]`. -/
structure ConnectResult where
  success : Bool
  repository : Repository
deriving DecidableEq, Repr

/-- The parsed body of a successful `/generate-documentation` response:
`doc_result.get("success")` and `doc_result["documentation"]`. -/
structure GenResult where
  success : Bool
  documentation : Documentation
deriving DecidableEq, Repr

/-- Outcome of one HTTP request: a response with a status code and a
parsed body, or a raised exception (connection error, timeout, ...). -/
inductive HttpOutcome (α : Type) where
  | ok (status : Nat) (body : α)
  | exn
deriving DecidableEq, Repr

/-- `test_backend_connection` (streamlit_app.py lines 28-34): true
exactly when `GET /health` answers 200; any exception yields false. -/
def test_backend_connection (resp : HttpOutcome Unit) : Bool :=
  match resp with
  | .ok status _ => status == 200
  | .exn => false

/-- `check_backend` (run_chat.py lines 11-17), textually the same logic
as `test_backend_connection`. -/
def check_backend (resp : HttpOutcome Unit) : Bool :=
  match resp with
  | .ok status _ => status == 200
  | .exn => false

/-- `connect_to_repository` (lines 36-51): returns the parsed JSON body
on status 200, `None` (after `st.error`) on any other status or on an
exception. -/
def connect_to_repository (resp : HttpOutcome ConnectResult) : Option ConnectResult :=
  match resp with
  | .ok status body => if status == 200 then some body else none
  | .exn => none

/-- `generate_documentation` (lines 53-76): returns the parsed JSON body
on status 200, `None` otherwise. -/
def generate_documentation (resp : HttpOutcome GenResult) : Option GenResult :=
  match resp with
  | .ok status body => if status == 200 then some body else none
  | .exn => none

/-- `chat_with_repository` (lines 78-101): returns
`response.json()["reply"]` on status 200, `None` otherwise. -/
def chat_with_repository (resp : HttpOutcome String) : Option String :=
  match resp with
  | .ok status reply => if status == 200 then some reply else none
  | .exn => none

/-- Python truthiness of a string: non-emptiness, taken on the
character list (equivalent to `s` being a non-empty string). -/
def pyTruthy (s : String) : Bool := !s.data.isEmpty

/-- Python truthiness of the `Optional[str]` returned by
`chat_with_repository`: falsy when `None` and when the empty string. -/
def pyTruthyStr (response : Option String) : Bool :=
  match response with
  | none => false
  | some s => pyTruthy s

/-- The whole `st.session_state` of the script (lines 19-26). -/
structure SessionState where
  messages : List ChatMessage
  repository : Option Repository
  documentation : Option Documentation
  conversation_history : List ChatMessage
deriving DecidableEq, Repr

/-- Session state right after initialization (lines 19-26): empty logs,
no repository, no documentation. -/
def initState : SessionState :=
  { messages := []
    repository := none
    documentation := none
    conversation_history := [] }

/-- The fixed question list returned when no documentation (or no inner
`"json"` payload) is present (lines 148-153). -/
def no_doc_questions : List String :=
  ["What does this repository do?",
   "How is the project structured?",
   "What are the main files?"]

/-- The fixed generic prompts used when documentation is present
(lines 156-161). -/
def generic_doc_questions : List String :=
  ["What does this repository do?",
   "How do I get started with this project?",
   "What are the main components?",
   "How is the code organized?"]

/-- The keyword list of line 166. -/
def keywordList : List String :=
  ["main", "index", "app", "server"]

/-- Does `hay` start with `pat`? -/
def charsStartWith (pat hay : List Char) : Bool :=
  match pat, hay with
  | [], _ => true
  | _ :: _, [] => false
  | p :: ps, h :: hs => p == h && charsStartWith ps hs

/-- Python substring membership `pat in hay` on character lists. -/
def charsContain (hay pat : List Char) : Bool :=
  match hay with
  | [] => pat.isEmpty
  | _ :: t => charsStartWith pat hay || charsContain t pat

/-- The per-file keyword test of line 166: does the lowercased path
contain one of the four keywords as a substring?  Embedded on character
lists. -/
def containsKeyword (f : String) : Bool :=
  keywordList.any (fun keyword => charsContain (f.data.map Char.toLower) keyword.data)

/-- `suggest_questions` (lines 146-172).  The `repository` argument is
accepted but unused, as in the source.  `files` is the key list of
`doc_data.get("files", \x7b\x7d)`; `files[1]` is only read under the
`len(files) > 1` guard, so the total `getD` access is equivalent. -/
def suggest_questions (repository : Option Repository)
    (documentation : Option Documentation) : List String :=
  match documentation with
  | none => no_doc_questions
  | some doc =>
    match doc.json with
    | none => no_doc_questions
    | some doc_data =>
      let suggestions := generic_doc_questions
      let files := doc_data.files
      let suggestions :=
        if !files.isEmpty then
          let main_files := files.filter containsKeyword
          let suggestions :=
            match main_files with
            | m :: _ => suggestions ++ ["What does " ++ m ++ " do?"]
            | [] => suggestions
          if files.length > 1 then
            suggestions ++ ["Explain the " ++ files.getD 1 "" ++ " file"]
          else suggestions
        else suggestions
      suggestions.take 6

/-- Handler of the "Connect to Repository" button (lines 200-210):
guarded by `if repo_url:` (string truthiness); on a call result that is
truthy and has a truthy `success` field, replaces `repository` and
resets `documentation` to `None`. -/
def connectStep (s : SessionState) (repo_url : String)
    (resp : HttpOutcome ConnectResult) : SessionState :=
  if pyTruthy repo_url then
    match connect_to_repository resp with
    | some result =>
      if result.success then
        { s with repository := some result.repository, documentation := none }
      else s
    | none => s
  else s

/-- Handler of the "Generate Documentation" button (lines 225-231): on a
truthy result with truthy `success`, stores the documentation. -/
def generateStep (s : SessionState) (resp : HttpOutcome GenResult) : SessionState :=
  match generate_documentation resp with
  | some doc_result =>
    if doc_result.success then
      { s with documentation := some doc_result.documentation }
    else s
  | none => s

/-- Common body of the chat-input handler (lines 282-308) and the
suggested-question handler (lines 253-272): append the user message to
both logs, call the backend, and append the assistant reply to both
logs only when the returned reply is truthy (`if response:`). -/
def chatStep (s : SessionState) (prompt : String)
    (response : Option String) : SessionState :=
  let user_message : ChatMessage := { role := Role.user, content := prompt }
  let s1 := { s with
    messages := s.messages ++ [user_message]
    conversation_history := s.conversation_history ++ [user_message] }
  if pyTruthyStr response then
    let assistant_message : ChatMessage :=
      { role := Role.assistant, content := response.getD "" }
    { s1 with
      messages := s1.messages ++ [assistant_message]
      conversation_history := s1.conversation_history ++ [assistant_message] }
  else s1

/-- Handler of the "Clear Chat" button (lines 312-315). -/
def clearChatStep (s : SessionState) : SessionState :=
  { s with messages := [], conversation_history := [] }

/-- One user interaction during a rerun whose health check passed. -/
inductive Event where
  | connect (repo_url : String) (resp : HttpOutcome ConnectResult)
  | generate (resp : HttpOutcome GenResult)
  | chat (prompt : String) (resp : HttpOutcome String)
  | suggested (i : Nat) (resp : HttpOutcome String)
  | clearChat
deriving Repr

/-- The script, viewed as a transition function on session state.  The
guards reproduce which widgets the script renders at all:
the connect button is always in the sidebar; the generate button only
under `if st.session_state.repository:` with `st.session_state.documentation`
falsy (lines 213-231); the chat input, the suggested-question buttons
and the clear-chat button only under both `if st.session_state.repository:`
(line 234) and `if st.session_state.documentation:` (line 238); the
chat-input handler additionally fires only on a truthy prompt
(`if prompt := st.chat_input(...)`, line 282), and the clear-chat button
only when `st.session_state.messages` is truthy (line 311). -/
def step (s : SessionState) (e : Event) : SessionState :=
  match e with
  | .connect repo_url resp => connectStep s repo_url resp
  | .generate resp =>
    if s.repository.isSome && !s.documentation.isSome then
      generateStep s resp
    else s
  | .chat prompt resp =>
    if s.repository.isSome && s.documentation.isSome && pyTruthy prompt then
      chatStep s prompt (chat_with_repository resp)
    else s
  | .suggested i resp =>
    if s.repository.isSome && s.documentation.isSome then
      match (suggest_questions s.repository s.documentation)[i]? with
      | some q => chatStep s q (chat_with_repository resp)
      | none => s
    else s
  | .clearChat =>
    if s.repository.isSome && s.documentation.isSome && !s.messages.isEmpty then
      clearChatStep s
    else s

/-- A whole interactive session: the interactions applied in order,
starting from the initialized state. -/
def runEvents (s : SessionState) (es : List Event) : SessionState :=
  es.foldl step s

/-- "The call failed": a non-200 status or a raised exception
(transport error, timeout). -/
def httpFailed {α : Type} (resp : HttpOutcome α) : Bool :=
  match resp with
  | .ok status _ => status != 200
  | .exn => true

/-! Concrete fixtures, taken from the end-to-end scenario of the spec
(section 8): repository `octo/demo` and a documentation payload with
files `main.py` and `utils.py`. -/

/-- The repository of the end-to-end scenario. -/
def exRepo : Repository :=
  { owner := "octo"
    name := "demo"
    defaultBranch := "main"
    url := "https://github.com/octo/demo"
    description := none
    fileStructure := "tree" }

/-- A second repository, used to exercise reconnecting. -/
def exRepo2 : Repository :=
  { owner := "octo"
    name := "demo2"
    defaultBranch := "main"
    url := "https://github.com/octo/demo2"
    description := none
    fileStructure := "tree2" }

/-- The documentation payload of the end-to-end scenario. -/
def exDocData : DocData :=
  { summary := some
      { summary := "A demo"
        technologies := ["py"]
        mainComponents := ["core"] }
    files := ["main.py", "utils.py"] }

/-- The documentation dict wrapping `exDocData` under its `json` key. -/
def exDoc : Documentation := { json := some exDocData }

/-- A session in which both `repository` and `documentation` are set and
the logs are empty. -/
def exReady : SessionState :=
  { messages := []
    repository := some exRepo
    documentation := some exDoc
    conversation_history := [] }

/-! Helper lemmas shared by the claim theorems. -/

/-- String truthiness coincides with being non-empty. -/
theorem pyTruthy_iff (s : String) : pyTruthy s = true ↔ s ≠ "" := by
  constructor
  · intro h he
    subst he
    exact absurd h (by decide)
  · intro h
    cases s with
    | mk d =>
      cases d with
      | nil => exact absurd rfl h
      | cons c t => rfl

/-- A failed connect call is reported as `None`. -/
theorem connect_to_repository_of_failed (resp : HttpOutcome ConnectResult)
    (h : httpFailed resp = true) : connect_to_repository resp = none := by
  cases resp with
  | ok status body =>
    simp only [httpFailed, bne_iff_ne, ne_eq, decide_eq_true_eq] at h
    simp [connect_to_repository, h]
  | exn => rfl

/-- A failed generate call is reported as `None`. -/
theorem generate_documentation_of_failed (resp : HttpOutcome GenResult)
    (h : httpFailed resp = true) : generate_documentation resp = none := by
  cases resp with
  | ok status body =>
    simp only [httpFailed, bne_iff_ne, ne_eq, decide_eq_true_eq] at h
    simp [generate_documentation, h]
  | exn => rfl

/-- A failed chat call is reported as `None`. -/
theorem chat_with_repository_of_failed (resp : HttpOutcome String)
    (h : httpFailed resp = true) : chat_with_repository resp = none := by
  cases resp with
  | ok status body =>
    simp only [httpFailed, bne_iff_ne, ne_eq, decide_eq_true_eq] at h
    simp [chat_with_repository, h]
  | exn => rfl

/-- Closed form of the chat handler body: the user message is appended
to both logs, and the assistant reply is appended to both exactly when
the returned reply is truthy. -/
theorem chatStep_eq (s : SessionState) (prompt : String)
    (response : Option String) :
    chatStep s prompt response =
      if pyTruthyStr response then
        { s with
          messages := s.messages ++
            [{ role := Role.user, content := prompt },
             { role := Role.assistant, content := response.getD "" }]
          conversation_history := s.conversation_history ++
            [{ role := Role.user, content := prompt },
             { role := Role.assistant, content := response.getD "" }] }
      else
        { s with
          messages := s.messages ++ [{ role := Role.user, content := prompt }]
          conversation_history :=
            s.conversation_history ++ [{ role := Role.user, content := prompt }] } := by
  by_cases h : pyTruthyStr response = true
  · simp [chatStep, h]
  · simp only [Bool.not_eq_true] at h
    simp [chatStep, h]

/-- The chat handler body never touches `repository` or
`documentation`. -/
theorem chatStep_repo_doc (s : SessionState) (prompt : String)
    (response : Option String) :
    (chatStep s prompt response).repository = s.repository
    ∧ (chatStep s prompt response).documentation = s.documentation := by
  rw [chatStep_eq]
  by_cases h : pyTruthyStr response = true
  · simp [h]
  · simp only [Bool.not_eq_true] at h
    simp [h]

/-- The connect handler never touches the logs. -/
theorem connectStep_logs (s : SessionState) (url : String)
    (resp : HttpOutcome ConnectResult) :
    (connectStep s url resp).messages = s.messages
    ∧ (connectStep s url resp).conversation_history = s.conversation_history := by
  unfold connectStep
  repeat' split
  all_goals exact ⟨rfl, rfl⟩

/-- The generate handler never touches the logs. -/
theorem generateStep_logs (s : SessionState) (resp : HttpOutcome GenResult) :
    (generateStep s resp).messages = s.messages
    ∧ (generateStep s resp).conversation_history = s.conversation_history := by
  unfold generateStep
  repeat' split
  all_goals exact ⟨rfl, rfl⟩

/-! Claim theorems. -/

/-- C5: `suggest_questions` returns at most 6 items for every input,
and exactly the fixed generic set (`no_doc_questions`) whenever the
documentation is `None` or carries no inner `"json"` payload. -/
theorem suggest_bounded_and_generic (repo : Option Repository)
    (doc : Option Documentation) :
    (suggest_questions repo doc).length ≤ 6
    ∧ ((doc = none ∨ doc = some { json := none }) →
        suggest_questions repo doc = no_doc_questions) := by
  constructor
  · match doc with
    | none =>
      show no_doc_questions.length ≤ 6
      decide
    | some { json := none } =>
      show no_doc_questions.length ≤ 6
      decide
    | some { json := some dd } =>
      simp only [suggest_questions]
      exact List.length_take_le 6 _
  · rintro (rfl | rfl) <;> rfl

/-- C5 witness: at a concrete input with no documentation the result is
the fixed generic set, of length at most 6. -/
theorem suggest_bounded_and_generic_witness :
    (suggest_questions (some exRepo) none).length ≤ 6
    ∧ suggest_questions (some exRepo) none = no_doc_questions :=
  ⟨(suggest_bounded_and_generic (some exRepo) none).1,
   (suggest_bounded_and_generic (some exRepo) none).2 (Or.inl rfl)⟩

/-- C7: the clear-chat handler empties `messages` and
`conversation_history`, leaves `repository` and `documentation`
untouched, and at the event level applying it twice in a row yields the
same session state as applying it once. -/
theorem clearChat_spec (s : SessionState) :
    (clearChatStep s).messages = []
    ∧ (clearChatStep s).conversation_history = []
    ∧ (clearChatStep s).repository = s.repository
    ∧ (clearChatStep s).documentation = s.documentation
    ∧ step (step s Event.clearChat) Event.clearChat = step s Event.clearChat := by
  refine ⟨rfl, rfl, rfl, rfl, ?_⟩
  cases hg : (s.repository.isSome && s.documentation.isSome && !s.messages.isEmpty) with
  | false => simp [step, hg]
  | true => simp [step, hg, clearChatStep]

/-- C8: the health check is a total boolean function: true exactly when
the liveness endpoint answers with status 200, false on any other
status and on any raised exception; `check_backend` of run_chat.py
computes the same function. -/
theorem checkHealth_total_boolean (resp : HttpOutcome Unit) :
    (test_backend_connection resp = true ↔ resp = HttpOutcome.ok 200 ())
    ∧ check_backend resp = test_backend_connection resp := by
  cases resp with
  | ok status body =>
    cases body
    simp [test_backend_connection, check_backend]
  | exn => simp [test_backend_connection, check_backend]

/-- C8 witness: the health check evaluated on a 200 answer and on a
raised exception. -/
theorem checkHealth_total_boolean_witness :
    test_backend_connection (HttpOutcome.ok 200 ()) = true
    ∧ test_backend_connection HttpOutcome.exn = false
    ∧ check_backend HttpOutcome.exn = test_backend_connection HttpOutcome.exn :=
  ⟨(checkHealth_total_boolean (HttpOutcome.ok 200 ())).1.mpr rfl,
   by decide,
   (checkHealth_total_boolean HttpOutcome.exn).2⟩

/-- C1: chat is reachable if and only if both `repository` and
`documentation` are set.  While either is unset, the chat-input and
suggested-question handlers are not rendered, so no chat call is issued
and no chat message is appended (the state is unchanged); when both are
set, any non-empty prompt issues a chat call that strictly grows the
message log. -/
theorem chat_gating (s : SessionState) :
    ((s.repository = none ∨ s.documentation = none) →
      ∀ p i resp,
        step s (Event.chat p resp) = s ∧ step s (Event.suggested i resp) = s)
    ∧ (s.repository ≠ none → s.documentation ≠ none →
      ∀ p resp, p ≠ "" →
        s.messages.length < (step s (Event.chat p resp)).messages.length) := by
  constructor
  · rintro (h | h) p i resp <;> constructor <;> simp [step, h]
  · intro hr hd p resp hp
    have hr' : s.repository.isSome = true := Option.isSome_iff_ne_none.mpr hr
    have hd' : s.documentation.isSome = true := Option.isSome_iff_ne_none.mpr hd
    have hp' : pyTruthy p = true := (pyTruthy_iff p).mpr hp
    simp only [step, hr', hd', hp', Bool.and_self, Bool.and_true, if_true]
    rw [chatStep_eq]
    by_cases ht : pyTruthyStr (chat_with_repository resp) = true
    · simp [ht]
    · simp only [Bool.not_eq_true] at ht
      simp [ht]

/-- C1 witness: with no repository connected a chat event leaves the
state unchanged; with repository and documentation set a chat event
grows the message log. -/
theorem chat_gating_witness :
    step initState (Event.chat "hi" HttpOutcome.exn) = initState
    ∧ exReady.messages.length <
        (step exReady (Event.chat "hi" HttpOutcome.exn)).messages.length :=
  ⟨((chat_gating initState).1 (Or.inl rfl) "hi" 0 HttpOutcome.exn).1,
   (chat_gating exReady).2 (by decide) (by decide) "hi" HttpOutcome.exn (by decide)⟩

/-- C2: connecting a new repository always clears any previously
generated documentation: after connect(A); generate(); connect(B) with
connect(B) succeeding, `documentation` is `None` and `repository` is
the repository returned for B, whatever the prior state. -/
theorem connect_resets_documentation (s : SessionState) (urlA : String)
    (respA : HttpOutcome ConnectResult) (respG : HttpOutcome GenResult)
    (urlB : String) (respB : HttpOutcome ConnectResult) (r : ConnectResult)
    (hurl : urlB ≠ "") (hok : connect_to_repository respB = some r)
    (hs : r.success = true) :
    (runEvents s [Event.connect urlA respA, Event.generate respG,
        Event.connect urlB respB]).documentation = none
    ∧ (runEvents s [Event.connect urlA respA, Event.generate respG,
        Event.connect urlB respB]).repository = some r.repository := by
  have hurl' : pyTruthy urlB = true := (pyTruthy_iff urlB).mpr hurl
  simp [runEvents, step, connectStep, hurl', hok, hs]

/-- C2 witness: the scenario run from the initialized state with a
successful connect to `octo/demo`, a successful generate, then a
successful connect to `octo/demo2`. -/
theorem connect_resets_documentation_witness :
    (runEvents initState
      [Event.connect "https://github.com/octo/demo"
          (HttpOutcome.ok 200 { success := true, repository := exRepo }),
       Event.generate (HttpOutcome.ok 200 { success := true, documentation := exDoc }),
       Event.connect "https://github.com/octo/demo2"
          (HttpOutcome.ok 200 { success := true, repository := exRepo2 })]).documentation
      = none
    ∧ (runEvents initState
      [Event.connect "https://github.com/octo/demo"
          (HttpOutcome.ok 200 { success := true, repository := exRepo }),
       Event.generate (HttpOutcome.ok 200 { success := true, documentation := exDoc }),
       Event.connect "https://github.com/octo/demo2"
          (HttpOutcome.ok 200 { success := true, repository := exRepo2 })]).repository
      = some exRepo2 :=
  connect_resets_documentation initState "https://github.com/octo/demo"
    (HttpOutcome.ok 200 { success := true, repository := exRepo })
    (HttpOutcome.ok 200 { success := true, documentation := exDoc })
    "https://github.com/octo/demo2"
    (HttpOutcome.ok 200 { success := true, repository := exRepo2 })
    { success := true, repository := exRepo2 }
    (by decide) rfl rfl

/-- C4: failure atomicity.  For every remote operation (connect,
generate documentation, chat from either handler), a call that fails
with a non-200 status or a raised exception leaves `repository` and
`documentation` exactly as they were before the call. -/
theorem failure_atomicity (s : SessionState) :
    (∀ url (resp : HttpOutcome ConnectResult), httpFailed resp = true →
      (step s (Event.connect url resp)).repository = s.repository
      ∧ (step s (Event.connect url resp)).documentation = s.documentation)
    ∧ (∀ resp : HttpOutcome GenResult, httpFailed resp = true →
      (step s (Event.generate resp)).repository = s.repository
      ∧ (step s (Event.generate resp)).documentation = s.documentation)
    ∧ (∀ prompt (resp : HttpOutcome String), httpFailed resp = true →
      (step s (Event.chat prompt resp)).repository = s.repository
      ∧ (step s (Event.chat prompt resp)).documentation = s.documentation)
    ∧ (∀ (i : Nat) (resp : HttpOutcome String), httpFailed resp = true →
      (step s (Event.suggested i resp)).repository = s.repository
      ∧ (step s (Event.suggested i resp)).documentation = s.documentation) := by
  refine ⟨?_, ?_, ?_, ?_⟩
  · intro url resp h
    cases hc : pyTruthy url <;>
      simp [step, connectStep, connect_to_repository_of_failed resp h, hc]
  · intro resp h
    cases hg : (s.repository.isSome && !s.documentation.isSome) <;>
      simp [step, generateStep, generate_documentation_of_failed resp h, hg]
  · intro prompt resp h
    cases hg : (s.repository.isSome && s.documentation.isSome && pyTruthy prompt) with
    | false => simp [step, hg]
    | true =>
      have hcd := chatStep_repo_doc s prompt (chat_with_repository resp)
      simp [step, hg, hcd.1, hcd.2]
  · intro i resp h
    cases hg : (s.repository.isSome && s.documentation.isSome) with
    | false => simp [step, hg]
    | true =>
      simp only [step, hg, if_true]
      cases hq : (suggest_questions s.repository s.documentation)[i]? with
      | none => exact ⟨rfl, rfl⟩
      | some q =>
        have hcd := chatStep_repo_doc s q (chat_with_repository resp)
        exact ⟨hcd.1, hcd.2⟩

/-- C4 witness: a timed-out connect call and a timed-out chat call on a
fully set-up session leave `repository` and `documentation`
unchanged. -/
theorem failure_atomicity_witness :
    (step exReady (Event.connect "u" HttpOutcome.exn)).repository = exReady.repository
    ∧ (step exReady (Event.chat "hi" HttpOutcome.exn)).documentation
        = exReady.documentation :=
  ⟨((failure_atomicity exReady).1 "u" HttpOutcome.exn rfl).1,
   ((failure_atomicity exReady).2.2.1 "hi" HttpOutcome.exn rfl).2⟩

/-- The chat handler body keeps the two logs equal when they were
equal, since it appends the same messages to both. -/
theorem chatStep_logs_eq (s : SessionState) (prompt : String)
    (response : Option String)
    (h : s.messages = s.conversation_history) :
    (chatStep s prompt response).messages
      = (chatStep s prompt response).conversation_history := by
  rw [chatStep_eq]
  by_cases ht : pyTruthyStr response = true
  · simp [ht, h]
  · simp only [Bool.not_eq_true] at ht
    simp [ht, h]

/-- Every event preserves equality of the two logs. -/
theorem step_preserves_logs_eq (s : SessionState) (e : Event)
    (h : s.messages = s.conversation_history) :
    (step s e).messages = (step s e).conversation_history := by
  cases e with
  | connect url resp =>
    have hc := connectStep_logs s url resp
    show (connectStep s url resp).messages = (connectStep s url resp).conversation_history
    rw [hc.1, hc.2]
    exact h
  | generate resp =>
    simp only [step]
    cases hg : (s.repository.isSome && !s.documentation.isSome) with
    | false => simpa using h
    | true =>
      have hc := generateStep_logs s resp
      simp only [if_true]
      rw [hc.1, hc.2]
      exact h
  | chat prompt resp =>
    cases hg : (s.repository.isSome && s.documentation.isSome && pyTruthy prompt) with
    | false => simpa [step, hg] using h
    | true =>
      simp only [step, hg, if_true]
      exact chatStep_logs_eq s prompt (chat_with_repository resp) h
  | suggested i resp =>
    cases hg : (s.repository.isSome && s.documentation.isSome) with
    | false => simpa [step, hg] using h
    | true =>
      simp only [step, hg, if_true]
      cases hq : (suggest_questions s.repository s.documentation)[i]? with
      | none => exact h
      | some q => exact chatStep_logs_eq s q (chat_with_repository resp) h
  | clearChat =>
    cases hg : (s.repository.isSome && s.documentation.isSome && !s.messages.isEmpty) with
    | false => simpa [step, hg] using h
    | true => simp [step, hg, clearChatStep]

/-- Equality of the two logs is preserved by any sequence of events. -/
theorem runEvents_preserves_logs_eq (es : List Event) (s : SessionState)
    (h : s.messages = s.conversation_history) :
    (runEvents s es).messages = (runEvents s es).conversation_history := by
  induction es generalizing s with
  | nil => exact h
  | cons e es ih => exact ih (step s e) (step_preserves_logs_eq s e h)

/-- C9: `messages` and `conversation_history` are always equal as
sequences: both start empty, and after any sequence of user
interactions from the initialized state the two logs are identical. -/
theorem logs_identical (es : List Event) :
    (runEvents initState es).messages
      = (runEvents initState es).conversation_history :=
  runEvents_preserves_logs_eq es initState rfl

/-- C10: a chat call answered with HTTP 200 and an empty reply string is
treated exactly like a failed call: the wrapper returns the reply, but
the truthiness test in the handler appends no assistant message, so
both logs grow by exactly the user turn. -/
theorem empty_reply_treated_as_failure (s : SessionState) (prompt : String)
    (hr : s.repository ≠ none) (hd : s.documentation ≠ none)
    (hp : prompt ≠ "") :
    chat_with_repository (HttpOutcome.ok 200 "") = some ""
    ∧ (step s (Event.chat prompt (HttpOutcome.ok 200 ""))).messages
        = s.messages ++ [{ role := Role.user, content := prompt }]
    ∧ (step s (Event.chat prompt (HttpOutcome.ok 200 ""))).conversation_history
        = s.conversation_history ++ [{ role := Role.user, content := prompt }]
    ∧ (step s (Event.chat prompt (HttpOutcome.ok 200 ""))).messages.length
        = s.messages.length + 1 := by
  have hr' : s.repository.isSome = true := Option.isSome_iff_ne_none.mpr hr
  have hd' : s.documentation.isSome = true := Option.isSome_iff_ne_none.mpr hd
  have hp' : pyTruthy prompt = true := (pyTruthy_iff prompt).mpr hp
  have hf : pyTruthyStr (chat_with_repository (HttpOutcome.ok 200 "")) = false := by
    decide
  refine ⟨rfl, ?_, ?_, ?_⟩ <;>
    simp [step, hr', hd', hp', chatStep_eq, hf]

/-- C10 witness: on the fully set-up example session, the chat event
with a 200-status empty reply appends only the user turn. -/
theorem empty_reply_treated_as_failure_witness :
    (step exReady (Event.chat "hi" (HttpOutcome.ok 200 ""))).messages
      = exReady.messages ++ [{ role := Role.user, content := "hi" }] :=
  (empty_reply_treated_as_failure exReady "hi" (by decide) (by decide)
    (by decide)).2.1

/-- C3 counterexample: a chat call answered with status 200 and the
reply string `""` returns successfully from `chat_with_repository`
(the result is not `None`), yet with prior history length 0 the history
afterwards has length 1, not 2 as the claim requires for a successful
call. -/
theorem chat_n_plus_two_counterexample :
    chat_with_repository (HttpOutcome.ok 200 "") ≠ none
    ∧ (step exReady (Event.chat "hi" (HttpOutcome.ok 200 ""))).messages.length
        = exReady.messages.length + 1
    ∧ (step exReady (Event.chat "hi" (HttpOutcome.ok 200 ""))).conversation_history.length
        = exReady.conversation_history.length + 1 := by
  decide

/-- C3 (amended): the user message is appended to both logs before the
remote chat call, and the assistant reply is appended to both only if
the call returns a non-empty reply; the history length grows by 1 when
the call fails (non-200 status or exception) or the reply is falsy, and
by 2 when the call returns status 200 with a non-empty reply. -/
theorem chat_append_discipline (s : SessionState) (prompt : String)
    (resp : HttpOutcome String) :
    (pyTruthyStr (chat_with_repository resp) = false →
      chatStep s prompt (chat_with_repository resp) =
        { s with
          messages := s.messages ++ [{ role := Role.user, content := prompt }]
          conversation_history :=
            s.conversation_history ++ [{ role := Role.user, content := prompt }] })
    ∧ (∀ reply, chat_with_repository resp = some reply → reply ≠ "" →
      chatStep s prompt (chat_with_repository resp) =
        { s with
          messages := s.messages ++
            [{ role := Role.user, content := prompt },
             { role := Role.assistant, content := reply }]
          conversation_history := s.conversation_history ++
            [{ role := Role.user, content := prompt },
             { role := Role.assistant, content := reply }] })
    ∧ (httpFailed resp = true →
      (chatStep s prompt (chat_with_repository resp)).messages.length
          = s.messages.length + 1
      ∧ (chatStep s prompt (chat_with_repository resp)).conversation_history.length
          = s.conversation_history.length + 1)
    ∧ (∀ reply, resp = HttpOutcome.ok 200 reply → reply ≠ "" →
      (chatStep s prompt (chat_with_repository resp)).messages.length
          = s.messages.length + 2
      ∧ (chatStep s prompt (chat_with_repository resp)).conversation_history.length
          = s.conversation_history.length + 2) := by
  refine ⟨?_, ?_, ?_, ?_⟩
  · intro hf
    rw [chatStep_eq, hf]
    simp
  · intro reply hok hne
    have ht : pyTruthyStr (chat_with_repository resp) = true := by
      rw [hok]
      exact (pyTruthy_iff reply).mpr hne
    rw [chatStep_eq, ht, hok]
    simp
  · intro hfail
    have hf : pyTruthyStr (chat_with_repository resp) = false := by
      rw [chat_with_repository_of_failed resp hfail]
      rfl
    rw [chatStep_eq, hf]
    simp
  · intro reply hok hne
    subst hok
    have hok' : chat_with_repository (HttpOutcome.ok 200 reply) = some reply := rfl
    have ht : pyTruthyStr (chat_with_repository (HttpOutcome.ok 200 reply)) = true := by
      rw [hok']
      exact (pyTruthy_iff reply).mpr hne
    rw [chatStep_eq, ht]
    simp

/-- C3 witness: on the example session, a chat call with a non-empty
reply grows both logs by 2. -/
theorem chat_append_discipline_witness :
    (chatStep exReady "hi"
        (chat_with_repository (HttpOutcome.ok 200 "yo"))).messages.length
      = exReady.messages.length + 2 :=
  ((chat_append_discipline exReady "hi" (HttpOutcome.ok 200 "yo")).2.2.2 "yo"
    rfl (by decide)).1

/-- C6: when documentation is present, the result of
`suggest_questions` is the 4 fixed generic prompts followed by up to
two file-specific prompts: the first file whose lowercased path
contains one of the keywords (if any such file exists) and the second
file of the listing (if there is more than one file); on the spec
scenario with files `main.py` and `utils.py` the result is exactly the
4 generic prompts plus a question about each of the two files, 6 items
total. -/
theorem suggest_augmentation (repo : Option Repository) (dd : DocData) :
    (suggest_questions repo (some { json := some dd })).take 4
        = generic_doc_questions
    ∧ (suggest_questions repo (some { json := some dd })).length ≤ 6
    ∧ (∀ m rest, dd.files.filter containsKeyword = m :: rest →
        ("What does " ++ m ++ " do?")
          ∈ suggest_questions repo (some { json := some dd }))
    ∧ (∀ f₁ f₂ rest, dd.files = f₁ :: f₂ :: rest →
        ("Explain the " ++ f₂ ++ " file")
          ∈ suggest_questions repo (some { json := some dd }))
    ∧ suggest_questions repo (some { json := some exDocData }) =
        ["What does this repository do?",
         "How do I get started with this project?",
         "What are the main components?",
         "How is the code organized?",
         "What does main.py do?",
         "Explain the utils.py file"] := by
  have h1 : ∀ l : List String,
      ((generic_doc_questions ++ l).take 6).take 4 = generic_doc_questions := by
    intro l
    rw [List.take_take]
    have h46 : (4 : Nat) ⊓ 6 = 4 := by norm_num
    rw [h46]
    exact List.take_left' rfl
  refine ⟨?_, ?_, ?_, ?_, ?_⟩
  · simp only [suggest_questions]
    cases he : dd.files.isEmpty with
    | true => simp; decide
    | false =>
      simp only [Bool.not_false, if_true]
      cases hm : dd.files.filter containsKeyword with
      | nil =>
        by_cases hl : dd.files.length > 1
        · simp only [hl, if_true]
          exact h1 _
        · simp only [hl, if_false]
          decide
      | cons m t =>
        by_cases hl : dd.files.length > 1
        · simp only [hl, if_true]
          rw [List.append_assoc]
          exact h1 _
        · simp only [hl, if_false]
          exact h1 _
  · simp only [suggest_questions]
    exact List.length_take_le 6 _
  · intro m rest hm
    have hne : dd.files.isEmpty = false := by
      cases hf : dd.files with
      | nil => rw [hf] at hm; simp at hm
      | cons a t => rfl
    simp only [suggest_questions, hne, Bool.not_false, if_true, hm]
    by_cases hl : dd.files.length > 1
    · simp only [hl, if_true]
      rw [List.take_of_length_le (by simp [generic_doc_questions])]
      simp
    · simp only [hl, if_false]
      rw [List.take_of_length_le (by simp [generic_doc_questions])]
      simp
  · intro f₁ f₂ rest hf
    have hne : dd.files.isEmpty = false := by rw [hf]; rfl
    have hl : dd.files.length > 1 := by rw [hf]; simp
    have hg : dd.files.getD 1 "" = f₂ := by rw [hf]; rfl
    simp only [suggest_questions, hne, Bool.not_false, if_true, hl, hg]
    cases hm : dd.files.filter containsKeyword with
    | nil =>
      rw [List.take_of_length_le (by simp [generic_doc_questions])]
      simp
    | cons m t =>
      rw [List.take_of_length_le (by simp [generic_doc_questions])]
      simp
  · rfl

/-- C6 witness: the two file-specific prompts of the spec scenario are
in the suggestion list for its documentation payload. -/
theorem suggest_augmentation_witness :
    ("What does " ++ "main.py" ++ " do?")
      ∈ suggest_questions none (some { json := some exDocData })
    ∧ ("Explain the " ++ "utils.py" ++ " file")
      ∈ suggest_questions none (some { json := some exDocData }) :=
  ⟨(suggest_augmentation none exDocData).2.2.1 "main.py" [] (by decide),
   (suggest_augmentation none exDocData).2.2.2.1 "main.py" "utils.py" [] rfl⟩
